import Mathlib

/-!
Verification of `movies/views.py` of the `bmhmovies` repository.

The Python view functions are shallowly embedded as pure Lean functions:

* the title-parsing helpers `extract_episode_number` and
  `extract_movie_order_number` are modelled down to the semantics of the
  concrete regular expressions they use (leftmost match, greedy `\s*` and
  `\d+`, word boundaries);
* the install-tracking endpoints `track_install` / `track_uninstall` become
  state-passing functions over an association list keyed by `device_id`;
* Django's `Paginator.get_page` (page size 24, invalid page → 1,
  out-of-range page → last page) is modelled by `getPage`;
* `download_movie` becomes a function from an application state to a
  redirect target plus a new state.

Modelling caveats, recorded once here: Python strings are Unicode and the
`re` classes `\s`, `\d`, `\w` as well as `str.lower()` are Unicode-aware;
the model restricts these classes to their ASCII behaviour, which is what
every title and identifier in the repository exercises.  Python's `int()`
also accepts underscores between digits; the model accepts an optional
sign and a digit run surrounded by whitespace.
-/

namespace BmhMovies

/-- The characters matched by the regex class `\d` (ASCII range). -/
def isDigitC (c : Char) : Bool := '0' ≤ c && c ≤ '9'

/-- The characters matched by the regex class `\s` (ASCII range):
space, tab, newline, carriage return, vertical tab, form feed. -/
def pyIsSpace (c : Char) : Bool :=
  c = ' ' || c = '\t' || c = '\n' || c = '\r' || c = '\x0b' || c = '\x0c'

/-- The characters matched by the regex class `\w` (ASCII range),
used for the word boundary `\b`. -/
def isWordC (c : Char) : Bool := c.isAlpha || isDigitC c || c = '_'

/-- Numeric value of a digit run, as computed by Python's `int()`
(the regex groups below only ever capture `\d+` runs). -/
def digitsToNat (ds : List Char) : Nat :=
  ds.foldl (fun n c => n * 10 + (c.toNat - '0'.toNat)) 0

/-- `str.lower()` applied characterwise, as a character list. -/
def pyLower (s : String) : List Char := s.data.map Char.toLower

/-- `str.strip()`: drop leading and trailing whitespace. -/
def pyStrip (l : List Char) : List Char :=
  ((l.dropWhile pyIsSpace).reverse.dropWhile pyIsSpace).reverse

/-- Matching `\s*(\d+)` at the head of `l`: greedily consume whitespace,
then a non-empty greedy digit run.  Returns `(spaces, digits, rest)`.
Because `\s` and `\d` are disjoint the greedy spans need no backtracking. -/
def spacesThenDigits (l : List Char) : Option (List Char × List Char × List Char) :=
  let sp := l.takeWhile pyIsSpace
  let r1 := l.dropWhile pyIsSpace
  let ds := r1.takeWhile isDigitC
  let r2 := r1.dropWhile isDigitC
  if ds = [] then none else some (sp, ds, r2)

/-- The literal `pisode` of the regex `e(?:pisode)?\s*(\d+)`. -/
def pisodeLit : List Char := ['p', 'i', 's', 'o', 'd', 'e']

/-- The literal `eason` of the regex `s(?:eason)?\s*(\d+)`. -/
def easonLit : List Char := ['e', 'a', 's', 'o', 'n']

/-- Attempt to match `e(?:pisode)?\s*(\d+)` at the head of `l`,
returning group 1 (the digits).  The optional group `(?:pisode)?` is first
tried with the literal present; if that fails the engine retries without
it, which can only succeed when `\s*\d+` matches right after the `e` —
and after a present `pisode` literal the retry necessarily fails on the
`p`, so the fallback is only attempted when the literal is absent. -/
def matchEpisodeAt (l : List Char) : Option (List Char) :=
  match l with
  | [] => none
  | c :: rest =>
    if c = 'e' then
      if pisodeLit.isPrefixOf rest then
        match spacesThenDigits (rest.drop 6) with
        | some (_, ds, _) => some ds
        | none => none
      else
        match spacesThenDigits rest with
        | some (_, ds, _) => some ds
        | none => none
    else none

/-- `re.search(r"e(?:pisode)?\s*(\d+)", l)`: leftmost match, group 1. -/
def searchEpisode : List Char → Option (List Char)
  | [] => none
  | c :: rest =>
    match matchEpisodeAt (c :: rest) with
    | some ds => some ds
    | none => searchEpisode rest

/-- Attempt to match `s(?:eason)?\s*(\d+)` at the head of `l`, returning
`(group 0, group 1)`; group 0 (the whole matched text) is what
`extract_episode_number` later removes from the title. -/
def matchSeasonAt (l : List Char) : Option (List Char × List Char) :=
  match l with
  | [] => none
  | c :: rest =>
    if c = 's' then
      if easonLit.isPrefixOf rest then
        match spacesThenDigits (rest.drop 5) with
        | some (sp, ds, _) => some ('s' :: ('e' :: 'a' :: 's' :: 'o' :: 'n' :: (sp ++ ds)), ds)
        | none => none
      else
        match spacesThenDigits rest with
        | some (sp, ds, _) => some ('s' :: (sp ++ ds), ds)
        | none => none
    else none

/-- `re.search(r"s(?:eason)?\s*(\d+)", l)`: leftmost match. -/
def searchSeason : List Char → Option (List Char × List Char)
  | [] => none
  | c :: rest =>
    match matchSeasonAt (c :: rest) with
    | some r => some r
    | none => searchSeason rest

/-- Scanner for `re.search(r"\b(\d+)\b", l)`.  `prevWord` records whether
the character before the current position is a `\w` character (so `\b`
holds exactly when `prevWord` is false, the first character being a digit).
A digit run followed by a `\w` character admits no match starting inside
it, so the scan resumes one character further, as the regex engine does. -/
def standaloneFrom (prevWord : Bool) : List Char → Option (List Char)
  | [] => none
  | c :: rest =>
    if !prevWord && isDigitC c then
      let ds := (c :: rest).takeWhile isDigitC
      let r2 := (c :: rest).dropWhile isDigitC
      match r2 with
      | [] => some ds
      | d :: _ => if isWordC d then standaloneFrom (isWordC c) rest else some ds
    else standaloneFrom (isWordC c) rest

/-- `re.search(r"\b(\d+)\b", l)`: leftmost standalone digit run. -/
def searchStandalone (l : List Char) : Option (List Char) := standaloneFrom false l

/-- Structural worker for `replaceAll`: the fuel is an upper bound on the
number of characters still to scan, so that the recursion is structural
(and therefore kernel-reducible); every step consumes at least one
character and one unit of fuel, so fuel `l.length` is never exhausted. -/
def replaceAllFuel (pat : List Char) : Nat → List Char → List Char
  | _, [] => []
  | 0, l => l
  | fuel + 1, c :: rest =>
    if pat ≠ [] && pat.isPrefixOf (c :: rest) then
      replaceAllFuel pat fuel (rest.drop (pat.length - 1))
    else
      c :: replaceAllFuel pat fuel rest

/-- `str.replace(pat, "")`: remove all (non-overlapping, left-to-right)
occurrences of `pat`.  For the empty pattern Python's replace with an
empty replacement returns the string unchanged, as does this model. -/
def replaceAll (pat : List Char) (l : List Char) : List Char :=
  replaceAllFuel pat l.length l

/-- `extract_episode_number` (views.py lines 18–56): lowercases the title,
reads the season from the leftmost `s(?:eason)?\s*(\d+)` match (default 1)
and the episode from the leftmost `e(?:pisode)?\s*(\d+)` match (default
9999); if the episode number is (still) 9999 and a season match exists,
falls back to the first standalone integer of the title with every
occurrence of the season match's text removed. -/
def extract_episode_number (title : String) : Nat × Nat :=
  let t := pyLower title
  let seasonRes := searchSeason t
  let season_num : Nat :=
    match seasonRes with
    | some (_, ds) => digitsToNat ds
    | none => 1
  let episode_num : Nat :=
    match searchEpisode t with
    | some ds => digitsToNat ds
    | none => 9999
  let episode_final : Nat :=
    if episode_num = 9999 then
      match seasonRes with
      | some (g0, _) =>
        match searchStandalone (replaceAll g0 t) with
        | some ds => digitsToNat ds
        | none => episode_num
      | none => episode_num
    else episode_num
  (season_num, episode_final)

/-- `extract_movie_order_number` (views.py lines 62–74):
`re.match(r"^(\d+)\.", title.strip())`, returning the captured integer,
or 9999 when the trimmed title does not start with digits followed by a
dot.  (Shrinking the greedy `\d+` cannot help the `\.` that follows, so
only the full leading digit run is relevant.) -/
def extract_movie_order_number (title : String) : Nat :=
  let t := pyStrip title.data
  let ds := t.takeWhile isDigitC
  let r := t.dropWhile isDigitC
  if ds = [] then 9999
  else if r.head? = some '.' then digitsToNat ds
  else 9999

/-! ### Install tracking (`track_install`, `track_uninstall`) -/

/-- One `InstallTracker` row.  `Modelled from the spec:` the model class
itself lives in `movies/models.py`, which is not part of the sources; the
fields are the ones the spec lists for InstallTracker (device_id is the
association-list key, timestamps are abstract naturals).  Field defaults
are irrelevant: `track_install` overwrites every field before the row is
first saved. -/
structure InstallTracker where
  install_count : Nat
  deleted_count : Nat
  device_name : String
  device_info : String
  last_action : String
  updated_at : Nat
deriving DecidableEq

/-- The InstallTracker table: an association list keyed by `device_id`
(the spec says device_id is a unique key). -/
abbrev TrackerDB := List (String × InstallTracker)

/-- Row lookup by key. -/
def dbGet : TrackerDB → String → Option InstallTracker
  | [], _ => none
  | (k, v) :: rest, d => if k = d then some v else dbGet rest d

/-- `get_or_create` followed by `save`: update the row in place, or append
a fresh one. -/
def dbSet : TrackerDB → String → InstallTracker → TrackerDB
  | [], d, t => [(d, t)]
  | (k, v) :: rest, d, t => if k = d then (d, t) :: rest else (k, v) :: dbSet rest d t

/-- `InstallTracker.objects.filter(install_count=1).count()`. -/
def countActive (db : TrackerDB) : Nat :=
  (db.filter (fun p => p.2.install_count == 1)).length

/-- `detect_device_name` (views.py lines 237–249). -/
def containsSub (needle : List Char) : List Char → Bool
  | [] => needle.isEmpty
  | c :: rest => needle.isPrefixOf (c :: rest) || containsSub needle rest

/-- `detect_device_name`: case-insensitive substring checks on the user
agent, in the source's order. -/
def detect_device_name (user_agent : String) : String :=
  let ua := pyLower user_agent
  if containsSub ['w', 'i', 'n', 'd', 'o', 'w', 's'] ua then "Windows PC/Laptop"
  else if containsSub ['a', 'n', 'd', 'r', 'o', 'i', 'd'] ua then "Android"
  else if containsSub ['i', 'p', 'h', 'o', 'n', 'e'] ua
      || containsSub ['i', 'p', 'a', 'd'] ua
      || containsSub ['i', 'o', 's'] ua then "iOS"
  else if containsSub ['m', 'a', 'c'] ua then "Mac"
  else "Unknown"

/-- The request body of a tracking call after `json.loads`:
either the parse raised `JSONDecodeError`, or it produced an object whose
`device_id` / `device_name` keys may each be absent. -/
inductive Body where
  | malformed
  | parsed (device_id : Option String) (device_name : Option String)
deriving DecidableEq

/-- JSON responses of the tracking endpoints: a 200 payload (message,
optional `device` field, optional `total_active_installs` field),
a 400, or a 500, each carrying its message string. -/
inductive TrackResponse where
  | ok (message : String) (device : Option String) (total_active : Option Nat)
  | err400 (message : String)
  | err500 (message : String)
deriving DecidableEq

/-- `data.get("device_name") or detect_device_name(ua)`: Python's `or`
falls through on a missing key and on the empty string. -/
def resolveDeviceName (dn : Option String) (ua : String) : String :=
  match dn with
  | some s => if s = "" then detect_device_name ua else s
  | none => detect_device_name ua

/-- `track_install` (views.py lines 254–297).  `exc` models an exception
raised by the database layer inside the `try` block (after body parsing
and the device-id check); the handler's `except Exception as e` branch
returns a 500 whose message is `str(e)`. -/
def track_install (db : TrackerDB) (now : Nat) (ua : String) (body : Body)
    (exc : Option String) : TrackResponse × TrackerDB :=
  match body with
  | .malformed => (.err400 "Invalid JSON", db)
  | .parsed did dn =>
    let device_name := resolveDeviceName dn ua
    match did with
    | none => (.err400 "Device ID missing", db)
    | some dids =>
      if dids = "" then (.err400 "Device ID missing", db)
      else
        match exc with
        | some m => (.err500 m, db)
        | none =>
          match dbGet db dids with
          | none =>
            let t : InstallTracker :=
              { install_count := 1, deleted_count := 0, device_info := ua,
                device_name := device_name, last_action := "install", updated_at := now }
            let db2 := dbSet db dids t
            (.ok "New install tracked" (some device_name) (some (countActive db2)), db2)
          | some t =>
            if t.install_count = 0 then
              let t2 := { t with
                install_count := 1
                device_name := device_name
                last_action := "reinstall"
                updated_at := now }
              let db2 := dbSet db dids t2
              (.ok "Re-install tracked (count restored)" (some device_name)
                (some (countActive db2)), db2)
            else
              let t2 := { t with
                device_name := device_name
                last_action := "install (re-open)"
                updated_at := now }
              let db2 := dbSet db dids t2
              (.ok "Already tracked (count maintained)" (some device_name)
                (some (countActive db2)), db2)

/-- `track_uninstall` (views.py lines 302–329).  `exc` models an exception
raised by the database layer inside the outer `try` block; note that the
handler's `except Exception` branch discards the exception and answers
with the fixed string `"Server error"`. -/
def track_uninstall (db : TrackerDB) (now : Nat) (body : Body)
    (exc : Option String) : TrackResponse × TrackerDB :=
  match body with
  | .malformed => (.err400 "Invalid JSON", db)
  | .parsed did _ =>
    match did with
    | none => (.err400 "Device ID is required", db)
    | some dids =>
      if dids = "" then (.err400 "Device ID is required", db)
      else
        match exc with
        | some _ => (.err500 "Server error", db)
        | none =>
          match dbGet db dids with
          | none => (.ok "Tracker not found, but uninstall acknowledged" none none, db)
          | some t =>
            if t.install_count = 1 then
              let t2 := { t with
                install_count := 0
                deleted_count := t.deleted_count + 1
                last_action := "uninstall"
                updated_at := now }
              let db2 := dbSet db dids t2
              (.ok "Uninstall tracked" none (some (countActive db2)), db2)
            else
              (.ok "Uninstall tracked" none (some (countActive db)), db)

/-- One call to a tracking endpoint, with its request data. -/
inductive Call where
  | install (now : Nat) (ua : String) (body : Body) (exc : Option String)
  | uninstall (now : Nat) (body : Body) (exc : Option String)

/-- The state transition of one tracking call. -/
def applyCall (db : TrackerDB) : Call → TrackerDB
  | .install now ua body exc => (track_install db now ua body exc).2
  | .uninstall now body exc => (track_uninstall db now body exc).2

/-- Run a sequence of tracking calls. -/
def runCalls (db : TrackerDB) (cs : List Call) : TrackerDB := cs.foldl applyCall db

/-- The `deleted_count` recorded for a device; a device with no row counts
as 0 (the value its row is created with). -/
def deletedOf (db : TrackerDB) (d : String) : Nat :=
  match dbGet db d with
  | some t => t.deleted_count
  | none => 0

/-! ### Pagination (`home`, `category_detail`) -/

/-- `int(s)` on a query-string value: optional surrounding whitespace,
optional sign, non-empty digit run. -/
def pyParseInt (s : String) : Option Int :=
  let l := pyStrip s.data
  let signed : Int × List Char :=
    match l with
    | '+' :: r => (1, r)
    | '-' :: r => (-1, r)
    | _ => (1, l)
  if signed.2 ≠ [] && signed.2.all isDigitC then
    some (signed.1 * digitsToNat signed.2)
  else none

/-- `Modelled from the spec:` Django's `Paginator.num_pages` is library
code outside the sources; with no orphans and `allow_empty_first_page`
it is `ceil(max(1, count) / per_page)`. -/
def numPages (count per : Nat) : Nat := max 1 ((count + per - 1) / per)

/-- `Modelled from the spec:` Django's `Paginator.get_page` is library
code outside the sources; per the spec it clamps a non-numeric (or
missing) page parameter to page 1 and an out-of-range page number to the
last page, then returns that page's slice.  (The views' surrounding
`try/except` is dead code: `get_page` already catches both
`PageNotAnInteger` and `EmptyPage`.) -/
def getPage {α : Type} (items : List α) (per : Nat) (raw : Option String) : List α :=
  let np := numPages items.length per
  let n : Nat :=
    match raw with
    | none => 1
    | some s =>
      match pyParseInt s with
      | none => 1
      | some i => if i < 1 then np else if (np : Int) < i then np else i.toNat
  (items.drop ((n - 1) * per)).take per

/-- The pagination step shared by `home` (views.py lines 99–110) and
`category_detail` (lines 182–192): `Paginator(combined_list, 24)` and
`get_page(request.GET.get("page"))`. -/
def listingPage {α : Type} (items : List α) (raw : Option String) : List α :=
  getPage items 24 raw

/-! ### `download_movie` and `get_client_ip` -/

/-- A `Movie` row, reduced to the fields the verified handlers read.
`Modelled from the spec:` the model class lives in `movies/models.py`,
which is not part of the sources; the spec lists title and download_link
(the other fields are not read by the claims' handlers). -/
structure Movie where
  title : String
  download_link : String
deriving DecidableEq

/-- A `DownloadLog` row (spec: movie_title, ip_address, user_agent,
user_email, username, download_time; `Modelled from the spec:` the model
class lives in `movies/models.py`, which is not part of the sources). -/
structure DownloadLog where
  movie_title : String
  ip_address : Option String
  user_agent : String
  user_email : Option String
  username : Option String
  download_time : Nat
deriving DecidableEq

/-- The parts of a Django request that `download_movie` and
`get_client_ip` read: three `META` entries (each possibly absent) and the
authenticated user, flattened to a flag plus email/username. -/
structure HttpRequest where
  xff : Option String
  remote_addr : Option String
  user_agent : Option String
  is_authenticated : Bool
  email : String
  username : String
deriving DecidableEq

/-- `get_client_ip` (views.py lines 208–213): the first comma-separated
entry of `X-Forwarded-For` when that header is present and non-empty
(Python truthiness), else `REMOTE_ADDR` (which may itself be absent). -/
def get_client_ip (r : HttpRequest) : Option String :=
  match r.xff with
  | some x =>
    if x = "" then r.remote_addr
    else some (String.mk (x.data.takeWhile (fun c => c ≠ ',')))
  | none => r.remote_addr

/-- The stored state `download_movie` can see: the Movie table (keyed by
primary key), the DownloadLog table, and the InstallTracker table. -/
structure AppState where
  movies : List (Nat × Movie)
  logs : List DownloadLog
  trackers : TrackerDB
deriving DecidableEq

/-- Movie lookup by primary key (`get_object_or_404`). -/
def movieGet : List (Nat × Movie) → Nat → Option Movie
  | [], _ => none
  | (k, v) :: rest, d => if k = d then some v else movieGet rest d

/-- `download_movie` (views.py lines 216–234): `none` is the 404 of
`get_object_or_404`; otherwise the result is the redirect target together
with the new state, whose log table has one appended row. -/
def download_movie (st : AppState) (movie_id : Nat) (req : HttpRequest)
    (now : Nat) : Option (String × AppState) :=
  match movieGet st.movies movie_id with
  | none => none
  | some m =>
    let log : DownloadLog :=
      { movie_title := m.title
        ip_address := get_client_ip req
        user_agent := req.user_agent.getD ""
        user_email := if req.is_authenticated then some req.email else none
        username := if req.is_authenticated then some req.username else none
        download_time := now }
    some (m.download_link, { st with logs := st.logs ++ [log] })

/-! ### `playlist_detail` sorting -/

/-- The loop over `movies[:5]` breaking at the first non-default leading
order number (views.py lines 134–138). -/
def hasNumericOrder (movies : List Movie) : Bool :=
  (movies.take 5).any (fun m => extract_movie_order_number m.title ≠ 9999)

/-- Comparison by leading order number (the `key=` of line 141). -/
def orderKeyLe (a b : Movie) : Prop :=
  extract_movie_order_number a.title ≤ extract_movie_order_number b.title

instance : DecidableRel orderKeyLe := fun a b =>
  inferInstanceAs (Decidable (extract_movie_order_number a.title ≤
    extract_movie_order_number b.title))

/-- Python's lexicographic `≤` on `(season, episode)` pairs. -/
def epPairLe (a b : Nat × Nat) : Prop := a.1 < b.1 ∨ (a.1 = b.1 ∧ a.2 ≤ b.2)

instance : DecidableRel epPairLe := fun a b =>
  inferInstanceAs (Decidable (a.1 < b.1 ∨ (a.1 = b.1 ∧ a.2 ≤ b.2)))

/-- Comparison by `(season, episode)` (the `key=` of line 143). -/
def episodeKeyLe (a b : Movie) : Prop :=
  epPairLe (extract_episode_number a.title) (extract_episode_number b.title)

instance : DecidableRel episodeKeyLe := fun a b =>
  inferInstanceAs (Decidable (epPairLe (extract_episode_number a.title)
    (extract_episode_number b.title)))

/-- The movie list `playlist_detail` renders (views.py lines 132–145):
Python's stable `list.sort` is modelled by the stable `insertionSort`. -/
def playlist_detail_movies (movies : List Movie) : List Movie :=
  if hasNumericOrder movies then List.insertionSort orderKeyLe movies
  else List.insertionSort episodeKeyLe movies

/-! ### Shared lemmas -/

lemma space_cases {c : Char} (h : pyIsSpace c = true) :
    c = ' ' ∨ c = '\t' ∨ c = '\n' ∨ c = '\r' ∨ c = '\x0b' ∨ c = '\x0c' := by
  have h2 : ((((c = ' ' ∨ c = '\t') ∨ c = '\n') ∨ c = '\x0d') ∨ c = '\x0b') ∨ c = '\x0c' := by
    simpa [pyIsSpace] using h
  tauto

lemma digit_not_space {c : Char} (h : isDigitC c = true) : pyIsSpace c = false := by
  cases hs : pyIsSpace c
  · rfl
  · rcases space_cases hs with rfl | rfl | rfl | rfl | rfl | rfl <;> revert h <;> decide

lemma takeWhile_all_append_not {α : Type} (p : α → Bool) (a : List α) (d : α) (b : List α)
    (ha : ∀ c ∈ a, p c = true) (hd : p d = false) :
    (a ++ d :: b).takeWhile p = a ∧ (a ++ d :: b).dropWhile p = d :: b := by
  induction a with
  | nil => simp [List.takeWhile, List.dropWhile, hd]
  | cons x a ih =>
    have hx : p x = true := ha x (List.mem_cons_self x a)
    have ih2 := ih (fun c hc => ha c (List.mem_cons_of_mem x hc))
    simp [List.takeWhile, List.dropWhile, hx, ih2.1, ih2.2]

lemma dropWhile_append_cons {α : Type} (p : α → Bool) (a : List α) (d : α) (b : List α)
    (hd : p d = false) :
    (a ++ d :: b).dropWhile p = a.dropWhile p ++ d :: b := by
  induction a with
  | nil => simp [List.dropWhile, hd]
  | cons x a ih =>
    cases hx : p x <;> simp [List.dropWhile, hx, ih]

lemma dbGet_dbSet_self (db : TrackerDB) (k : String) (t : InstallTracker) :
    dbGet (dbSet db k t) k = some t := by
  induction db with
  | nil => simp [dbSet, dbGet]
  | cons kv rest ih =>
    obtain ⟨k0, v0⟩ := kv
    by_cases h : k0 = k
    · simp [dbSet, dbGet, h]
    · simp [dbSet, dbGet, h, ih]

lemma dbGet_dbSet_ne (db : TrackerDB) (k : String) (t : InstallTracker) (d : String)
    (h : d ≠ k) : dbGet (dbSet db k t) d = dbGet db d := by
  have hkd : k ≠ d := fun hh => h hh.symm
  induction db with
  | nil => simp [dbSet, dbGet, hkd]
  | cons kv rest ih =>
    obtain ⟨k0, v0⟩ := kv
    by_cases h0 : k0 = k
    · subst h0
      simp [dbSet, dbGet, hkd]
    · simp [dbSet, dbGet, h0, ih]

lemma dbGet_mem (db : TrackerDB) (k : String) (t : InstallTracker)
    (h : dbGet db k = some t) : (k, t) ∈ db := by
  induction db with
  | nil => simp [dbGet] at h
  | cons kv rest ih =>
    obtain ⟨k0, v0⟩ := kv
    by_cases h0 : k0 = k
    · subst h0
      simp [dbGet] at h
      subst h
      exact List.mem_cons_self _ _
    · simp [dbGet, h0] at h
      exact List.mem_cons_of_mem _ (ih h)

/-! ### C2 / C10: the episode extractor -/

/-- The season number as the spec words it: "season comes from a
`season N` / `sN` marker (case-insensitive, default 1)". -/
def claimSeason (title : String) : Nat :=
  match searchSeason (pyLower title) with
  | some (_, ds) => digitsToNat ds
  | none => 1

/-- The episode number as claim C2 words it: the episode comes from an
`episode N` / `eN` marker (default 9999), and only "if no explicit
episode marker exists but a season marker does" does the first standalone
integer of the title (with the season marker text removed) take over. -/
def claimEpisode (title : String) : Nat :=
  let t := pyLower title
  match searchEpisode t with
  | some ds => digitsToNat ds
  | none =>
    match searchSeason t with
    | some (g0, _) =>
      match searchStandalone (replaceAll g0 t) with
      | some ds => digitsToNat ds
      | none => 9999
    | none => 9999

/-- The episode number as the code computes it: the standalone-integer
fallback triggers whenever the episode number is still 9999 — because no
marker matched, or because the matched marker's number is literally 9999
(`if episode_num == 9999 and season_match`, views.py line 47). -/
def amendedEpisode (title : String) : Nat :=
  let t := pyLower title
  let v : Nat :=
    match searchEpisode t with
    | some ds => digitsToNat ds
    | none => 9999
  if v = 9999 then
    match searchSeason t with
    | some (g0, _) =>
      match searchStandalone (replaceAll g0 t) with
      | some ds => digitsToNat ds
      | none => 9999
    | none => 9999
  else v

/-- C2 (counterexample): on `"s1 e9999 7"` the title has an explicit
episode marker `e9999`, so the claim's reading yields episode 9999; the
code nevertheless applies the standalone-integer fallback (its condition
tests the number, not the match) and returns episode 7. -/
theorem c2_episode_extractor_counterexample :
    extract_episode_number "s1 e9999 7" = (1, 7) ∧ claimEpisode "s1 e9999 7" = 9999 :=
  ⟨rfl, rfl⟩

/-- C2 (amended): `extract_episode_number` returns the season of the
leftmost `s(?:eason)?` marker (default 1) and the episode of the leftmost
`e(?:pisode)?` marker (default 9999), except that whenever the episode
number is still 9999 — no marker, or a marker whose number is 9999 — and
a season marker exists, the episode is the first standalone integer left
after removing the season marker text; the spec's two examples hold. -/
theorem c2_episode_extractor :
    (∀ t : String, extract_episode_number t = (claimSeason t, amendedEpisode t))
  ∧ extract_episode_number "Season 2 Episode 5" = (2, 5)
  ∧ extract_episode_number "random title" = (1, 9999) := by
  refine ⟨fun t => ?_, rfl, rfl⟩
  unfold extract_episode_number claimSeason amendedEpisode
  cases he : searchEpisode (pyLower t) with
  | none => cases hs : searchSeason (pyLower t) <;> simp [he, hs]
  | some ds =>
    cases hs : searchSeason (pyLower t) with
    | none => by_cases hv : digitsToNat ds = 9999 <;> simp [he, hs, hv]
    | some p => by_cases hv : digitsToNat ds = 9999 <;> simp [he, hs, hv]

lemma ne_of_true_of_false {α : Type} (p : α → Bool) {c d : α}
    (hc : p c = true) (hd : p d = false) : c ≠ d := by
  intro h
  subst h
  rw [hc] at hd
  cases hd

lemma pisodeLit_isPrefixOf_cons_false {x : Char} (l2 : List Char) (h : x ≠ 'p') :
    pisodeLit.isPrefixOf (x :: l2) = false := by
  have hb : ('p' == x) = false := beq_eq_false_iff_ne.mpr (Ne.symm h)
  simp [pisodeLit, List.isPrefixOf, hb]

lemma spacesThenDigits_isSome (sp : List Char) (d0 : Char) (l : List Char)
    (hsp : ∀ c ∈ sp, pyIsSpace c = true) (hd0 : isDigitC d0 = true) :
    (spacesThenDigits (sp ++ d0 :: l)).isSome = true := by
  have h := takeWhile_all_append_not pyIsSpace sp d0 l hsp (digit_not_space hd0)
  unfold spacesThenDigits
  rw [h.2]
  simp [List.takeWhile_cons, hd0]

lemma matchEpisodeAt_isSome (sp ds rest : List Char)
    (hsp : ∀ c ∈ sp, pyIsSpace c = true) (hne : ds ≠ [])
    (hds : ∀ c ∈ ds, isDigitC c = true) :
    (matchEpisodeAt ('e' :: (sp ++ (ds ++ rest)))).isSome = true := by
  obtain ⟨d0, ds2, rfl⟩ := List.exists_cons_of_ne_nil hne
  have hd0 : isDigitC d0 = true := hds d0 (List.mem_cons_self _ _)
  have hshape : sp ++ (d0 :: ds2 ++ rest) = sp ++ d0 :: (ds2 ++ rest) := by simp
  have hpre : pisodeLit.isPrefixOf (sp ++ d0 :: (ds2 ++ rest)) = false := by
    cases sp with
    | nil =>
      exact pisodeLit_isPrefixOf_cons_false _
        (ne_of_true_of_false isDigitC hd0 (by decide))
    | cons s0 sp2 =>
      exact pisodeLit_isPrefixOf_cons_false _
        (ne_of_true_of_false pyIsSpace (hsp s0 (List.mem_cons_self _ _)) (by decide))
  have hstd := spacesThenDigits_isSome sp d0 (ds2 ++ rest)
    hsp hd0
  rw [hshape]
  unfold matchEpisodeAt
  dsimp only
  rw [if_pos rfl, hpre]
  simp only [Bool.false_eq_true, if_false]
  cases hm : spacesThenDigits (sp ++ d0 :: (ds2 ++ rest)) with
  | none => rw [hm] at hstd; cases hstd
  | some r => obtain ⟨a, b, c⟩ := r; simp

lemma searchEpisode_cons (c : Char) (l : List Char) :
    searchEpisode (c :: l) =
      match matchEpisodeAt (c :: l) with
      | some ds => some ds
      | none => searchEpisode l := rfl

lemma searchEpisode_isSome_of_occurrence (pre sp ds rest : List Char)
    (hsp : ∀ c ∈ sp, pyIsSpace c = true) (hne : ds ≠ [])
    (hds : ∀ c ∈ ds, isDigitC c = true) :
    (searchEpisode (pre ++ 'e' :: (sp ++ (ds ++ rest)))).isSome = true := by
  induction pre with
  | nil =>
    rw [List.nil_append, searchEpisode_cons]
    have hm := matchEpisodeAt_isSome sp ds rest hsp hne hds
    cases h : matchEpisodeAt ('e' :: (sp ++ (ds ++ rest))) with
    | none => rw [h] at hm; cases hm
    | some r => simp
  | cons c pre ih =>
    rw [List.cons_append, searchEpisode_cons]
    cases h : matchEpisodeAt (c :: (pre ++ 'e' :: (sp ++ (ds ++ rest)))) with
    | none => simpa using ih
    | some r => simp

/-- C10: the `e(?:pisode)?\s*(\d+)` search treats ANY `e`, even one that
is an ordinary letter inside a word, followed by optional whitespace and
digits, as an episode marker: whenever such an occurrence exists the
search finds a match (second conjunct), and the episode component of
`extract_episode_number` equals the digits of the leftmost such match
(first conjunct, when those digits do not read 9999, in which case the
fallback could override them); in particular
`extract_episode_number "Title 7" = (1, 7)` through the final `e` of
`"title"`. -/
theorem c10_interior_e_matches_episode :
    (∀ (t : String) (ds : List Char), searchEpisode (pyLower t) = some ds →
        digitsToNat ds ≠ 9999 → (extract_episode_number t).2 = digitsToNat ds)
  ∧ (∀ pre sp ds rest : List Char, (∀ c ∈ sp, pyIsSpace c = true) → ds ≠ [] →
        (∀ c ∈ ds, isDigitC c = true) →
        (searchEpisode (pre ++ 'e' :: (sp ++ (ds ++ rest)))).isSome = true)
  ∧ extract_episode_number "Title 7" = (1, 7) := by
  refine ⟨fun t ds he hne => ?_, searchEpisode_isSome_of_occurrence, rfl⟩
  unfold extract_episode_number
  cases hs : searchSeason (pyLower t) <;> simp [he, hs, hne]

/-- C10 witness: the general statements applied to the concrete title
`"Title 7"` and its occurrence decomposition `"titl" ++ "e" ++ " 7"`. -/
theorem c10_interior_e_matches_episode_witness :
    (extract_episode_number "Title 7").2 = digitsToNat ['7']
  ∧ (searchEpisode (['t', 'i', 't', 'l'] ++ 'e' :: ([' '] ++ (['7'] ++ [])))).isSome = true :=
  ⟨c10_interior_e_matches_episode.1 "Title 7" ['7'] rfl (by decide),
   c10_interior_e_matches_episode.2.1 ['t', 'i', 't', 'l'] [' '] ['7'] []
     (by decide) (by decide) (by decide)⟩

/-! ### C3: the leading order number -/

lemma pyStrip_digits_dot (ws ds r : List Char) (hws : ∀ c ∈ ws, pyIsSpace c = true)
    (hne : ds ≠ []) (hds : ∀ c ∈ ds, isDigitC c = true) :
    pyStrip (ws ++ (ds ++ '.' :: r)) = ds ++ '.' :: (r.reverse.dropWhile pyIsSpace).reverse := by
  obtain ⟨d0, ds2, rfl⟩ := List.exists_cons_of_ne_nil hne
  unfold pyStrip
  have h1 : (ws ++ (d0 :: ds2 ++ '.' :: r)).dropWhile pyIsSpace = d0 :: (ds2 ++ '.' :: r) := by
    have h := takeWhile_all_append_not pyIsSpace ws d0 (ds2 ++ '.' :: r) hws
      (digit_not_space (hds d0 (List.mem_cons_self _ _)))
    simpa using h.2
  rw [h1]
  have h2 : (d0 :: (ds2 ++ '.' :: r)).reverse = r.reverse ++ '.' :: (ds2.reverse ++ [d0]) := by
    simp
  rw [h2, dropWhile_append_cons pyIsSpace r.reverse '.' (ds2.reverse ++ [d0]) (by decide)]
  simp

lemma extract_order_of_strip (t : String) (ds r2 : List Char) (hne : ds ≠ [])
    (hds : ∀ c ∈ ds, isDigitC c = true)
    (hstrip : pyStrip t.data = ds ++ '.' :: r2) :
    extract_movie_order_number t = digitsToNat ds := by
  have h := takeWhile_all_append_not isDigitC ds '.' r2 hds (by decide)
  simp [extract_movie_order_number, hstrip, h.1, h.2, hne]

/-- C3: the leading-order extractor returns the integer of a leading
`<digits>.` token of the trimmed title (first conjunct: any title made of
whitespace, then digits, then a dot, then anything); conversely every
title either yields the default 9999 or its trimmed form really starts
with a digit run followed by a dot whose value is returned (second
conjunct); the spec's two examples hold. -/
theorem c3_leading_order_number :
    (∀ ws ds r : List Char, (∀ c ∈ ws, pyIsSpace c = true) → ds ≠ [] →
        (∀ c ∈ ds, isDigitC c = true) →
        extract_movie_order_number (String.mk (ws ++ (ds ++ '.' :: r))) = digitsToNat ds)
  ∧ (∀ t : String, extract_movie_order_number t = 9999 ∨
        ∃ ds r2, pyStrip t.data = ds ++ '.' :: r2 ∧ ds ≠ [] ∧
          (∀ c ∈ ds, isDigitC c = true) ∧ extract_movie_order_number t = digitsToNat ds)
  ∧ extract_movie_order_number "10. Title" = 10
  ∧ extract_movie_order_number "Title" = 9999 := by
  refine ⟨fun ws ds r hws hne hds => ?_, fun t => ?_, rfl, rfl⟩
  · exact extract_order_of_strip _ ds _ hne hds (pyStrip_digits_dot ws ds r hws hne hds)
  · cases hd : (pyStrip t.data).takeWhile isDigitC with
    | nil => left; simp [extract_movie_order_number, hd]
    | cons d0 ds2 =>
      cases hr : (pyStrip t.data).dropWhile isDigitC with
      | nil => left; simp [extract_movie_order_number, hd, hr]
      | cons c r2 =>
        by_cases hc : c = '.'
        · subst hc
          right
          refine ⟨d0 :: ds2, r2, ?_, List.cons_ne_nil _ _, ?_, ?_⟩
          · rw [← hd, ← hr, List.takeWhile_append_dropWhile]
          · intro x hx
            exact List.mem_takeWhile_imp (hd ▸ hx)
          · simp [extract_movie_order_number, hd, hr]
        · left
          simp [extract_movie_order_number, hd, hr, hc]

/-- C3 witness: the first conjunct applied to the concrete decomposition
`" " ++ "10" ++ "." ++ "x"`. -/
theorem c3_leading_order_number_witness :
    extract_movie_order_number (String.mk ([' '] ++ (['1', '0'] ++ '.' :: ['x']))) =
      digitsToNat ['1', '0'] :=
  c3_leading_order_number.1 [' '] ['1', '0'] ['x'] (by decide) (by decide) (by decide)

/-! ### C5: pagination -/

/-- C5: both listings page at a fixed size of 24 (first conjunct: no page
ever holds more than 24 items); a numeric page parameter at or beyond the
last page returns the last page's slice (second conjunct); a non-numeric
page parameter, or a missing one, returns page 1 (third and fourth
conjuncts).  Totality of `listingPage` is the model's rendering of
"never an error". -/
theorem c5_pagination_clamps :
    (∀ (α : Type) (items : List α) (raw : Option String),
        (listingPage items raw).length ≤ 24)
  ∧ (∀ (α : Type) (items : List α) (s : String) (i : Int),
        pyParseInt s = some i → (numPages items.length 24 : Int) ≤ i →
        listingPage items (some s) =
          (items.drop ((numPages items.length 24 - 1) * 24)).take 24)
  ∧ (∀ (α : Type) (items : List α) (s : String), pyParseInt s = none →
        listingPage items (some s) = items.take 24)
  ∧ (∀ (α : Type) (items : List α), listingPage items none = items.take 24) := by
  refine ⟨fun α items raw => ?_, fun α items s i hp hge => ?_,
    fun α items s hp => ?_, fun α items => ?_⟩
  · unfold listingPage getPage
    simp only [List.length_take]
    omega
  · simp only [listingPage, getPage, hp]
    have h1 : 1 ≤ numPages items.length 24 := le_max_left _ _
    have h1i : (1 : Int) ≤ (numPages items.length 24 : Int) := by exact_mod_cast h1
    rw [if_neg (not_lt.mpr (le_trans h1i hge))]
    by_cases h2 : (numPages items.length 24 : Int) < i
    · rw [if_pos h2]
    · rw [if_neg h2]
      have hi : i = (numPages items.length 24 : Int) := le_antisymm (not_lt.mp h2) hge
      rw [hi]
      simp
  · simp [listingPage, getPage, hp]
  · simp [listingPage, getPage]

/-- C5 witness: a 26-item listing has 2 pages; page "30" is clamped to
the last page. -/
theorem c5_pagination_clamps_witness :
    listingPage (List.range 26) (some "30") =
      ((List.range 26).drop ((numPages (List.range 26).length 24 - 1) * 24)).take 24 :=
  c5_pagination_clamps.2.1 Nat (List.range 26) "30" 30 (by decide) (by decide)

/-! ### C6: `playlist_detail` sorting -/

lemma epPairLe_total (a b : Nat × Nat) : epPairLe a b ∨ epPairLe b a := by
  unfold epPairLe
  omega

lemma epPairLe_trans (a b c : Nat × Nat) (hab : epPairLe a b) (hbc : epPairLe b c) :
    epPairLe a c := by
  unfold epPairLe at *
  omega

instance : IsTotal Movie orderKeyLe := ⟨fun _ _ => Nat.le_total _ _⟩

instance : IsTrans Movie orderKeyLe := ⟨fun _ _ _ hab hbc => Nat.le_trans hab hbc⟩

instance : IsTotal Movie episodeKeyLe := ⟨fun _ _ => epPairLe_total _ _⟩

instance : IsTrans Movie episodeKeyLe := ⟨fun _ _ _ => epPairLe_trans _ _ _⟩

/-- C6: `playlist_detail` inspects only the first five movies for a
non-default leading order number (third conjunct: the branch taken
depends only on `take 5`); when one of them has such a number the whole
list is a permutation of the input sorted ascending by
`extract_movie_order_number` (first conjunct); otherwise it is a
permutation sorted ascending by the lexicographic `(season, episode)`
pair of `extract_episode_number` (second conjunct). -/
theorem c6_playlist_detail_sorting :
    (∀ movies : List Movie, hasNumericOrder movies = true →
        List.Perm (playlist_detail_movies movies) movies ∧
        List.Sorted orderKeyLe (playlist_detail_movies movies))
  ∧ (∀ movies : List Movie, hasNumericOrder movies = false →
        List.Perm (playlist_detail_movies movies) movies ∧
        List.Sorted episodeKeyLe (playlist_detail_movies movies))
  ∧ (∀ l1 l2 : List Movie, l1.take 5 = l2.take 5 →
        hasNumericOrder l1 = hasNumericOrder l2) := by
  refine ⟨fun movies h => ?_, fun movies h => ?_, fun l1 l2 h => ?_⟩
  · unfold playlist_detail_movies
    rw [if_pos h]
    exact ⟨List.perm_insertionSort _ _, List.sorted_insertionSort _ _⟩
  · unfold playlist_detail_movies
    rw [if_neg (by simp [h])]
    exact ⟨List.perm_insertionSort _ _, List.sorted_insertionSort _ _⟩
  · unfold hasNumericOrder
    rw [h]

/-- C6 witness: a two-element playlist with leading numbers is sorted by
them; one without is sorted by the episode heuristic. -/
theorem c6_playlist_detail_sorting_witness :
    (List.Perm (playlist_detail_movies [⟨"2. B", ""⟩, ⟨"1. A", ""⟩])
        [⟨"2. B", ""⟩, ⟨"1. A", ""⟩] ∧
      List.Sorted orderKeyLe (playlist_detail_movies [⟨"2. B", ""⟩, ⟨"1. A", ""⟩]))
  ∧ (List.Perm (playlist_detail_movies [⟨"S1E2", ""⟩, ⟨"S1E1", ""⟩])
        [⟨"S1E2", ""⟩, ⟨"S1E1", ""⟩] ∧
      List.Sorted episodeKeyLe (playlist_detail_movies [⟨"S1E2", ""⟩, ⟨"S1E1", ""⟩])) :=
  ⟨c6_playlist_detail_sorting.1 [⟨"2. B", ""⟩, ⟨"1. A", ""⟩] (by decide),
   c6_playlist_detail_sorting.2.1 [⟨"S1E2", ""⟩, ⟨"S1E1", ""⟩] (by decide)⟩

/-! ### C7: `download_movie` -/

/-- C7: for an existing movie, `download_movie` appends exactly one
`DownloadLog` row — title, client IP, user agent, the authenticated
user's email/username or `none`, timestamp — and redirects to the movie's
stored `download_link`, leaving the movie and tracker tables untouched
(first conjunct: the whole new state is the old one with one log row
appended).  The client IP is `REMOTE_ADDR` when `X-Forwarded-For` is
absent (second conjunct) and the first comma-separated entry of
`X-Forwarded-For` otherwise (third conjunct). -/
theorem c7_download_movie_logs_once :
    (∀ (st : AppState) (mid : Nat) (req : HttpRequest) (now : Nat) (m : Movie),
        movieGet st.movies mid = some m →
        download_movie st mid req now = some (m.download_link,
          { st with logs := st.logs ++
            [{ movie_title := m.title
               ip_address := get_client_ip req
               user_agent := req.user_agent.getD ""
               user_email := if req.is_authenticated then some req.email else none
               username := if req.is_authenticated then some req.username else none
               download_time := now }] }))
  ∧ (∀ r : HttpRequest, r.xff = none → get_client_ip r = r.remote_addr)
  ∧ (∀ (r : HttpRequest) (x : String) (a b : List Char), r.xff = some x →
        x.data = a ++ ',' :: b → (∀ c ∈ a, c ≠ ',') →
        get_client_ip r = some (String.mk a)) := by
  refine ⟨fun st mid req now m hm => ?_, fun r hx => ?_, fun r x a b hx hdata ha => ?_⟩
  · simp [download_movie, hm]
  · simp [get_client_ip, hx]
  · have hxe : x ≠ "" := by
      intro h
      subst h
      simp at hdata
    unfold get_client_ip
    rw [hx]
    dsimp only
    rw [if_neg hxe, hdata]
    have ha2 : ∀ c ∈ a, (fun c => decide (c ≠ ',')) c = true := by
      intro c hc
      simpa using ha c hc
    rw [(takeWhile_all_append_not (fun c => decide (c ≠ ',')) a ',' b ha2 (by decide)).1]

/-- C7 witness: the general statement applied to a one-movie state and a
request with a two-entry `X-Forwarded-For` header. -/
theorem c7_download_movie_logs_once_witness :
    (download_movie ⟨[(1, ⟨"T", "http://x"⟩)], [], []⟩ 1
        ⟨some "1.2.3.4,5.6.7.8", some "9.9.9.9", some "UA", true, "e@x", "u"⟩ 42).map
      Prod.fst = some "http://x"
  ∧ get_client_ip ⟨some "1.2.3.4,5.6.7.8", some "9.9.9.9", some "UA", true, "e@x", "u"⟩ =
      some (String.mk ['1', '.', '2', '.', '3', '.', '4']) := by
  constructor
  · rw [c7_download_movie_logs_once.1 ⟨[(1, ⟨"T", "http://x"⟩)], [], []⟩ 1
      ⟨some "1.2.3.4,5.6.7.8", some "9.9.9.9", some "UA", true, "e@x", "u"⟩ 42
      ⟨"T", "http://x"⟩ rfl]
    rfl
  · exact c7_download_movie_logs_once.2.2
      ⟨some "1.2.3.4,5.6.7.8", some "9.9.9.9", some "UA", true, "e@x", "u"⟩
      "1.2.3.4,5.6.7.8" ['1', '.', '2', '.', '3', '.', '4']
      ['5', '.', '6', '.', '7', '.', '8'] rfl (by decide) (by decide)

/-! ### C9: error handling of the tracking endpoints -/

/-- C9 (counterexample): on a database-layer exception with message
`"boom"`, `track_uninstall` answers 500 with the fixed text
`"Server error"`; it does not expose the exception's message as the
claim (reading the spec's "the exception message exposed in the
response" across both endpoints) asserts. -/
theorem c9_tracking_errors_counterexample :
    track_uninstall [] 0 (Body.parsed (some "d") none) (some "boom") =
      (TrackResponse.err500 "Server error", ([] : TrackerDB))
  ∧ track_uninstall [] 0 (Body.parsed (some "d") none) (some "boom") ≠
      (TrackResponse.err500 "boom", ([] : TrackerDB)) := by
  exact ⟨rfl, by decide⟩

/-- C9 (amended): in both tracking endpoints a malformed body or a
missing/empty `device_id` yields a 400 with a JSON error message and
leaves the stored state unchanged (conjuncts 1–6); any other exception
yields a 500, whose message is the exception's text in `track_install`
but the fixed `"Server error"` in `track_uninstall` (conjuncts 7–8, also
state-preserving). -/
theorem c9_tracking_errors :
    (∀ (db : TrackerDB) (now : Nat) (ua : String) (exc : Option String),
        track_install db now ua Body.malformed exc = (.err400 "Invalid JSON", db))
  ∧ (∀ (db : TrackerDB) (now : Nat) (ua : String) (exc dn : Option String),
        track_install db now ua (Body.parsed none dn) exc = (.err400 "Device ID missing", db))
  ∧ (∀ (db : TrackerDB) (now : Nat) (ua : String) (exc dn : Option String),
        track_install db now ua (Body.parsed (some "") dn) exc =
          (.err400 "Device ID missing", db))
  ∧ (∀ (db : TrackerDB) (now : Nat) (exc : Option String),
        track_uninstall db now Body.malformed exc = (.err400 "Invalid JSON", db))
  ∧ (∀ (db : TrackerDB) (now : Nat) (exc dn : Option String),
        track_uninstall db now (Body.parsed none dn) exc =
          (.err400 "Device ID is required", db))
  ∧ (∀ (db : TrackerDB) (now : Nat) (exc dn : Option String),
        track_uninstall db now (Body.parsed (some "") dn) exc =
          (.err400 "Device ID is required", db))
  ∧ (∀ (db : TrackerDB) (now : Nat) (ua : String) (dn : Option String) (d m : String),
        d ≠ "" → track_install db now ua (Body.parsed (some d) dn) (some m) =
          (.err500 m, db))
  ∧ (∀ (db : TrackerDB) (now : Nat) (dn : Option String) (d m : String),
        d ≠ "" → track_uninstall db now (Body.parsed (some d) dn) (some m) =
          (.err500 "Server error", db)) := by
  refine ⟨fun db now ua exc => rfl, fun db now ua exc dn => rfl,
    fun db now ua exc dn => by simp [track_install],
    fun db now exc => rfl, fun db now exc dn => rfl,
    fun db now exc dn => by simp [track_uninstall],
    fun db now ua dn d m hd => by simp [track_install, hd],
    fun db now dn d m hd => by simp [track_uninstall, hd]⟩

/-- C9 witness: the 500 conjuncts applied at a concrete device and
message. -/
theorem c9_tracking_errors_witness :
    track_install [] 3 "ua" (Body.parsed (some "dev") none) (some "oops") =
      (.err500 "oops", ([] : TrackerDB))
  ∧ track_uninstall [] 3 (Body.parsed (some "dev") none) (some "oops") =
      (.err500 "Server error", ([] : TrackerDB)) :=
  ⟨c9_tracking_errors.2.2.2.2.2.2.1 [] 3 "ua" none "dev" "oops" (by decide),
   c9_tracking_errors.2.2.2.2.2.2.2 [] 3 none "dev" "oops" (by decide)⟩

/-! ### C8: repeated install calls -/

/-- C8 (counterexample): a repeated `track_install` for a tracker with
`install_count = 1` also overwrites `device_name` (views.py line 281),
contradicting the claim that every field other than `last_action` and
`updated_at` is left unchanged: here the stored name flips from
`"Android"` to the payload's `"Windows PC"`. -/
theorem c8_reopen_frame_counterexample :
    (dbGet (track_install
        [("d", { install_count := 1, deleted_count := 0, device_name := "Android",
                 device_info := "ua0", last_action := "install", updated_at := 0 })]
        5 "agent" (Body.parsed (some "d") (some "Windows PC")) none).2 "d").map
      (fun t => t.device_name) = some "Windows PC"
  ∧ some "Windows PC" ≠ some "Android" := by
  exact ⟨rfl, by decide⟩

/-- C8 (amended): for a tracker with `install_count = 1`, a repeated
`track_install` changes only `last_action` (to `"install (re-open)"`),
`updated_at`, and `device_name` (to the payload's name or the user-agent
heuristic); `install_count`, `deleted_count` and `device_info` are
unchanged and no other row of the table is touched. -/
theorem c8_reopen_frame (db : TrackerDB) (d : String) (t : InstallTracker) (now : Nat)
    (ua : String) (dn : Option String) (hd : d ≠ "") (ht : dbGet db d = some t)
    (h1 : t.install_count = 1) :
    ∃ t2, dbGet (track_install db now ua (Body.parsed (some d) dn) none).2 d = some t2 ∧
      t2.install_count = t.install_count ∧ t2.deleted_count = t.deleted_count ∧
      t2.device_info = t.device_info ∧ t2.last_action = "install (re-open)" ∧
      t2.updated_at = now ∧ t2.device_name = resolveDeviceName dn ua ∧
      ∀ d2, d2 ≠ d →
        dbGet (track_install db now ua (Body.parsed (some d) dn) none).2 d2 = dbGet db d2 := by
  have h0 : ¬ t.install_count = 0 := by omega
  simp only [track_install, ht, hd, h0, if_neg, if_false, ite_false]
  exact ⟨{ t with
      device_name := resolveDeviceName dn ua
      last_action := "install (re-open)"
      updated_at := now },
    dbGet_dbSet_self _ _ _, rfl, rfl, rfl, rfl, rfl, rfl,
    fun d2 hd2 => dbGet_dbSet_ne _ _ _ _ hd2⟩

/-- C8 witness: the amended statement applied to a concrete one-row
table. -/
theorem c8_reopen_frame_witness :
    ∃ t2, dbGet (track_install
        [("d", { install_count := 1, deleted_count := 3, device_name := "Android",
                 device_info := "ua0", last_action := "install", updated_at := 0 })]
        5 "agent" (Body.parsed (some "d") (some "Windows PC")) none).2 "d" = some t2 ∧
      t2.install_count = 1 ∧ t2.deleted_count = 3 ∧
      t2.device_info = "ua0" ∧ t2.last_action = "install (re-open)" ∧
      t2.updated_at = 5 ∧ t2.device_name = resolveDeviceName (some "Windows PC") "agent" ∧
      ∀ d2, d2 ≠ "d" →
        dbGet (track_install
          [("d", { install_count := 1, deleted_count := 3, device_name := "Android",
                   device_info := "ua0", last_action := "install", updated_at := 0 })]
          5 "agent" (Body.parsed (some "d") (some "Windows PC")) none).2 d2 =
        dbGet [("d", { install_count := 1, deleted_count := 3, device_name := "Android",
                       device_info := "ua0", last_action := "install", updated_at := 0 })] d2 :=
  c8_reopen_frame
    [("d", { install_count := 1, deleted_count := 3, device_name := "Android",
             device_info := "ua0", last_action := "install", updated_at := 0 })]
    "d"
    { install_count := 1, deleted_count := 3, device_name := "Android",
      device_info := "ua0", last_action := "install", updated_at := 0 }
    5 "agent" (some "Windows PC") (by decide) rfl rfl

/-! ### C4: install / uninstall / install -/

/-- C4: starting from a state with no tracker for `did`, the sequence
install, uninstall, install (valid bodies, no exceptions) leaves the
tracker for `did` with `install_count = 1` and `deleted_count = 1`. -/
theorem c4_install_uninstall_install (db : TrackerDB) (did : String) (n1 n2 n3 : Nat)
    (ua1 ua3 : String) (dn1 dn2 dn3 : Option String)
    (h0 : dbGet db did = none) (hd : did ≠ "") :
    ∃ t, dbGet (track_install
        (track_uninstall
          (track_install db n1 ua1 (Body.parsed (some did) dn1) none).2
          n2 (Body.parsed (some did) dn2) none).2
        n3 ua3 (Body.parsed (some did) dn3) none).2 did = some t ∧
      t.install_count = 1 ∧ t.deleted_count = 1 := by
  have key : dbGet (track_install
      (track_uninstall
        (track_install db n1 ua1 (Body.parsed (some did) dn1) none).2
        n2 (Body.parsed (some did) dn2) none).2
      n3 ua3 (Body.parsed (some did) dn3) none).2 did =
      some { install_count := 1, deleted_count := 1,
             device_name := resolveDeviceName dn3 ua3, device_info := ua1,
             last_action := "reinstall", updated_at := n3 } := by
    simp [track_install, track_uninstall, hd, h0, dbGet_dbSet_self]
  exact ⟨_, key, rfl, rfl⟩

/-- C4 witness: the sequence run at a concrete device on the empty
table. -/
theorem c4_install_uninstall_install_witness :
    ∃ t, dbGet (track_install
        (track_uninstall
          (track_install [] 1 "u1" (Body.parsed (some "dev") none) none).2
          2 (Body.parsed (some "dev") none) none).2
        3 "u3" (Body.parsed (some "dev") none) none).2 "dev" = some t ∧
      t.install_count = 1 ∧ t.deleted_count = 1 :=
  c4_install_uninstall_install [] "dev" 1 2 3 "u1" "u3" none none none rfl (by decide)

/-! ### C1: the InstallTracker invariants -/

/-- Every row's `install_count` is 0 or 1. -/
def InvDB (db : TrackerDB) : Prop :=
  ∀ p ∈ db, p.2.install_count = 0 ∨ p.2.install_count = 1

lemma invDB_dbSet (db : TrackerDB) (k : String) (t : InstallTracker)
    (ht : t.install_count = 0 ∨ t.install_count = 1) :
    InvDB db → InvDB (dbSet db k t) := by
  induction db with
  | nil =>
    intro _ p hp
    simp [dbSet] at hp
    rw [hp]
    exact ht
  | cons kv rest ih =>
    intro h p hp
    obtain ⟨k0, v0⟩ := kv
    by_cases h0 : k0 = k
    · subst h0
      simp [dbSet] at hp
      rcases hp with rfl | hp
      · exact ht
      · exact h p (List.mem_cons_of_mem _ hp)
    · simp [dbSet, h0] at hp
      rcases hp with rfl | hp
      · exact h _ (List.mem_cons_self _ _)
      · exact ih (fun q hq => h q (List.mem_cons_of_mem _ hq)) p hp

lemma invDB_track_install (db : TrackerDB) (now : Nat) (ua : String) (body : Body)
    (exc : Option String) (h : InvDB db) : InvDB (track_install db now ua body exc).2 := by
  cases body with
  | malformed => exact h
  | parsed did dn =>
    cases did with
    | none => exact h
    | some dids =>
      by_cases hd : dids = ""
      · simpa [track_install, hd] using h
      · cases exc with
        | some m => simpa [track_install, hd] using h
        | none =>
          cases hget : dbGet db dids with
          | none =>
            simp only [track_install, hd, hget]
            simp
            exact invDB_dbSet _ _ _ (Or.inr rfl) h
          | some t =>
            by_cases h1 : t.install_count = 0
            · simp only [track_install, hd, hget, h1]
              simp
              exact invDB_dbSet _ _ _ (Or.inr rfl) h
            · have htval : t.install_count = 0 ∨ t.install_count = 1 :=
                h (dids, t) (dbGet_mem _ _ _ hget)
              simp only [track_install, hd, hget, h1]
              simp [h1]
              exact invDB_dbSet _ _ _ htval h

lemma invDB_track_uninstall (db : TrackerDB) (now : Nat) (body : Body)
    (exc : Option String) (h : InvDB db) : InvDB (track_uninstall db now body exc).2 := by
  cases body with
  | malformed => exact h
  | parsed did dn =>
    cases did with
    | none => exact h
    | some dids =>
      by_cases hd : dids = ""
      · simpa [track_uninstall, hd] using h
      · cases exc with
        | some m => simpa [track_uninstall, hd] using h
        | none =>
          cases hget : dbGet db dids with
          | none => simpa [track_uninstall, hd, hget] using h
          | some t =>
            by_cases h1 : t.install_count = 1
            · simp only [track_uninstall, hd, hget, h1]
              simp
              exact invDB_dbSet _ _ _ (Or.inl rfl) h
            · simpa [track_uninstall, hd, hget, h1] using h

lemma invDB_applyCall (db : TrackerDB) (c : Call) (h : InvDB db) :
    InvDB (applyCall db c) := by
  cases c with
  | install now ua body exc => exact invDB_track_install db now ua body exc h
  | uninstall now body exc => exact invDB_track_uninstall db now body exc h

lemma invDB_runCalls (cs : List Call) : ∀ db : TrackerDB, InvDB db →
    InvDB (runCalls db cs) := by
  induction cs with
  | nil => intro db h; exact h
  | cons c cs ih =>
    intro db h
    have hstep : runCalls db (c :: cs) = runCalls (applyCall db c) cs := by
      simp [runCalls]
    rw [hstep]
    exact ih _ (invDB_applyCall db c h)

lemma deletedOf_track_install (db : TrackerDB) (now : Nat) (ua : String) (body : Body)
    (exc : Option String) (d : String) :
    deletedOf (track_install db now ua body exc).2 d = deletedOf db d := by
  cases body with
  | malformed => rfl
  | parsed did dn =>
    cases did with
    | none => rfl
    | some dids =>
      by_cases hd : dids = ""
      · simp [track_install, hd]
      · cases exc with
        | some m => simp [track_install, hd]
        | none =>
          cases hget : dbGet db dids with
          | none =>
            by_cases hdd : d = dids
            · subst hdd
              simp [track_install, hd, hget, deletedOf, dbGet_dbSet_self]
            · simp [track_install, hd, hget, deletedOf, dbGet_dbSet_ne _ _ _ _ hdd]
          | some t =>
            by_cases h1 : t.install_count = 0
            · by_cases hdd : d = dids
              · subst hdd
                simp [track_install, hd, hget, h1, deletedOf, dbGet_dbSet_self]
              · simp [track_install, hd, hget, h1, deletedOf,
                  dbGet_dbSet_ne _ _ _ _ hdd]
            · by_cases hdd : d = dids
              · subst hdd
                simp [track_install, hd, hget, h1, deletedOf, dbGet_dbSet_self]
              · simp [track_install, hd, hget, h1, deletedOf,
                  dbGet_dbSet_ne _ _ _ _ hdd]

lemma deletedOf_track_uninstall (db : TrackerDB) (now : Nat) (body : Body)
    (exc : Option String) (d : String) :
    deletedOf (track_uninstall db now body exc).2 d = deletedOf db d ∨
    (deletedOf (track_uninstall db now body exc).2 d = deletedOf db d + 1 ∧
      ∃ dn t, body = Body.parsed (some d) dn ∧ exc = none ∧ d ≠ "" ∧
        dbGet db d = some t ∧ t.install_count = 1) := by
  cases body with
  | malformed => exact Or.inl rfl
  | parsed did dn =>
    cases did with
    | none => exact Or.inl rfl
    | some dids =>
      by_cases hd : dids = ""
      · exact Or.inl (by simp [track_uninstall, hd])
      · cases exc with
        | some m => exact Or.inl (by simp [track_uninstall, hd])
        | none =>
          cases hget : dbGet db dids with
          | none => exact Or.inl (by simp [track_uninstall, hd, hget])
          | some t =>
            by_cases h1 : t.install_count = 1
            · by_cases hdd : d = dids
              · subst hdd
                refine Or.inr ⟨?_, dn, t, rfl, rfl, hd, hget, h1⟩
                simp [track_uninstall, hd, hget, h1, deletedOf, dbGet_dbSet_self]
              · exact Or.inl (by
                  simp [track_uninstall, hd, hget, h1, deletedOf,
                    dbGet_dbSet_ne _ _ _ _ hdd])
            · exact Or.inl (by simp [track_uninstall, hd, hget, h1])

/-- C1: across any sequence of tracking calls starting from an empty
table, every row's `install_count` is 0 or 1 (first conjunct); a single
call never decreases any device's `deleted_count` (second conjunct); and
whenever a call changes a device's `deleted_count` at all, it increments
it by exactly one and is an exception-free uninstall for that device
whose tracker exists with `install_count = 1` — the successful uninstall
transition (third conjunct). -/
theorem c1_install_tracker_invariants :
    (∀ cs : List Call, ∀ p ∈ runCalls [] cs,
        p.2.install_count = 0 ∨ p.2.install_count = 1)
  ∧ (∀ (db : TrackerDB) (c : Call) (d : String),
        deletedOf db d ≤ deletedOf (applyCall db c) d)
  ∧ (∀ (db : TrackerDB) (c : Call) (d : String),
        deletedOf (applyCall db c) d ≠ deletedOf db d →
        deletedOf (applyCall db c) d = deletedOf db d + 1 ∧
        ∃ now dn t, c = Call.uninstall now (Body.parsed (some d) dn) none ∧
          d ≠ "" ∧ dbGet db d = some t ∧ t.install_count = 1) := by
  refine ⟨fun cs => invDB_runCalls cs [] (fun p hp => absurd hp (List.not_mem_nil p)),
    fun db c d => ?_, fun db c d hne => ?_⟩
  · cases c with
    | install now ua body exc =>
      have h := deletedOf_track_install db now ua body exc d
      show deletedOf db d ≤ deletedOf (track_install db now ua body exc).2 d
      rw [h]
    | uninstall now body exc =>
      show deletedOf db d ≤ deletedOf (track_uninstall db now body exc).2 d
      rcases deletedOf_track_uninstall db now body exc d with h | ⟨h, _⟩
      · rw [h]
      · rw [h]
        omega
  · cases c with
    | install now ua body exc =>
      exact absurd (deletedOf_track_install db now ua body exc d) hne
    | uninstall now body exc =>
      rcases deletedOf_track_uninstall db now body exc d with h | ⟨h, dn, t, hb, hexc, hdne, hget, h1⟩
      · exact absurd h hne
      · subst hb
        subst hexc
        exact ⟨h, now, dn, t, rfl, hdne, hget, h1⟩

/-- C1 witness: the row created by one concrete install call satisfies
the 0/1 invariant, and a concrete successful uninstall is exactly a
`+1` transition of `deleted_count`. -/
theorem c1_install_tracker_invariants_witness :
    ((("d", { install_count := 1, deleted_count := 0, device_name := "Unknown",
              device_info := "ua", last_action := "install",
              updated_at := 0 }) : String × InstallTracker).2.install_count = 0 ∨
      (("d", { install_count := 1, deleted_count := 0, device_name := "Unknown",
               device_info := "ua", last_action := "install",
               updated_at := 0 }) : String × InstallTracker).2.install_count = 1)
  ∧ (deletedOf (applyCall
        [("d", { install_count := 1, deleted_count := 5, device_name := "n",
                 device_info := "i", last_action := "a", updated_at := 0 })]
        (Call.uninstall 7 (Body.parsed (some "d") none) none)) "d" =
      deletedOf
        [("d", { install_count := 1, deleted_count := 5, device_name := "n",
                 device_info := "i", last_action := "a", updated_at := 0 })] "d" + 1 ∧
      ∃ now dn t, Call.uninstall 7 (Body.parsed (some "d") none) none =
          Call.uninstall now (Body.parsed (some "d") dn) none ∧
        "d" ≠ "" ∧
        dbGet [("d", { install_count := 1, deleted_count := 5, device_name := "n",
                       device_info := "i", last_action := "a",
                       updated_at := 0 })] "d" = some t ∧
        t.install_count = 1) :=
  ⟨c1_install_tracker_invariants.1 [Call.install 0 "ua" (Body.parsed (some "d") none) none]
      ("d", { install_count := 1, deleted_count := 0, device_name := "Unknown",
              device_info := "ua", last_action := "install", updated_at := 0 })
      (by decide),
   c1_install_tracker_invariants.2.2
      [("d", { install_count := 1, deleted_count := 5, device_name := "n",
               device_info := "i", last_action := "a", updated_at := 0 })]
      (Call.uninstall 7 (Body.parsed (some "d") none) none) "d" (by decide)⟩

end BmhMovies
